import Mathlib

/-!
Verification of the Load-Aware-Scheduler-Plugin scoring engine
(plugin/LoadAware/metrics_obtain.go) against its specification.

The Go code is shallowly embedded: machine int64 values become Int
(no arithmetic in the embedded code can overflow in the claims under
study), Go maps become association lists or Option-wrapped lists
(none models a nil map, some [] models a non-nil empty map), and the
remote metrics server is modelled as an explicit oracle
world : String -> MetricsResult passed to every function that may
query it, so that the nil-client and error paths of the Go code are
visible as ordinary case analysis.
-/

namespace LoadAware

/-- Resource dimension names. In Go this is v1.ResourceName, a string
type; here the four names the resolver treats specially are split off
as constructors, and every remaining string name is `other name isScalar`
where `isScalar` records the verdict of the external library predicate
schedutil.IsScalarResourceName on that name. -/
inductive ResourceName where
  | cpu
  | memory
  | podNum
  | ephemeralStorage
  | other (name : String) (isScalar : Bool)
deriving DecidableEq, BEq

/-- The part of v1.Node the scoring code reads: the node name. -/
structure Node where
  Name : String
deriving DecidableEq

/-- framework.Resource: the per-node resource vector used for the
Allocatable, Requested and NonZeroRequested fields of NodeInfo.
ScalarResources is a Go map keyed by resource-name strings; lookup of
an absent key yields 0, as in Go. -/
structure Resource where
  MilliCPU : Int
  Memory : Int
  EphemeralStorage : Int
  AllowedPodNumber : Int
  ScalarResources : List (String × Int)
deriving DecidableEq

/-- framework.NodeInfo restricted to the fields the scoring code reads.
`node` is the possibly-nil pointer returned by nodeInfo.Node(); only
the length of Pods is ever read, so pods are modelled as Unit. -/
structure NodeInfo where
  node : Option Node
  Pods : List Unit
  Requested : Resource
  NonZeroRequested : Resource
  Allocatable : Resource
deriving DecidableEq

/-- The usage block of a v1beta1.NodeMetrics object: the two quantities
the resolver reads, Usage.Cpu().MilliValue() and Usage.Memory().Value(). -/
structure NodeUsage where
  cpuMilliValue : Int
  memoryValue : Int
deriving DecidableEq

/-- A NodeMetrics object as far as the resolver reads it. -/
structure NodeMetrics where
  Usage : NodeUsage
deriving DecidableEq

/-- Outcome of one NodeMetricses().Get call: a non-nil error, or a
metrics object. -/
inductive MetricsResult where
  | err
  | ok (metrics : NodeMetrics)
deriving DecidableEq

/-- framework status codes used by this plugin (framework.Error). -/
inductive StatusCode where
  | Error
deriving DecidableEq

/-- framework.NewStatus(code, message); a nil status (success) is
modelled as none at the use sites. -/
structure Status where
  code : StatusCode
  message : String
deriving DecidableEq

/-- resourceToWeightMap: resource name to weight. Go map, modelled as
an association list. -/
abbrev resourceToWeightMap := List (ResourceName × Int)

/-- resourceToValueMap: resource name to value. Go map, modelled as
an association list. -/
abbrev resourceToValueMap := List (ResourceName × Int)

/-- defaultResourcesToWeightMap from metrics_obtain.go:
memory 1, cpu 1<<20, podNum 1. -/
def defaultResourcesToWeightMap : resourceToWeightMap :=
  [(ResourceName.memory, 1), (ResourceName.cpu, (1 : Int) <<< 20), (ResourceName.podNum, 1)]

/-- resourceAllocationScorer. The metrics client pointer carries no
data the embedding needs beyond nil-ness, so it is Option Unit; the
network responses live in the world oracle instead. -/
structure resourceAllocationScorer where
  Name : String
  scorer : resourceToValueMap → resourceToValueMap → Int
  resourceToWeightMap : Option resourceToWeightMap
  metricsClient : Option Unit

/-- Go map indexing m[k] with its zero default for absent keys. -/
def scalarLookup (resources : List (String × Int)) (key : String) : Int :=
  (resources.lookup key).getD 0

/-- The name used to query the metrics server, nodeInfo.Node().Name.
The Go code dereferences the pointer without a nil check; score only
reaches the query after establishing the node is non-nil, and the empty
string stands for the (never taken in the program) nil case. -/
def NodeInfo.nodeName (nodeInfo : NodeInfo) : String :=
  match nodeInfo.node with
  | some node => node.Name
  | none => ""

/-- calculateResourceAllocatableRequest from metrics_obtain.go: the
static (request-based) resolution of (allocatable, cost) for one
resource dimension. -/
def calculateResourceAllocatableRequest (nodeInfo : NodeInfo) (resource : ResourceName) :
    Int × Int :=
  match resource with
  | ResourceName.cpu =>
      (nodeInfo.Allocatable.MilliCPU, nodeInfo.NonZeroRequested.MilliCPU)
  | ResourceName.memory =>
      (nodeInfo.Allocatable.Memory, nodeInfo.NonZeroRequested.Memory)
  | ResourceName.podNum =>
      (nodeInfo.Allocatable.AllowedPodNumber, (nodeInfo.Pods.length : Int))
  | ResourceName.ephemeralStorage =>
      (nodeInfo.Allocatable.EphemeralStorage, nodeInfo.NonZeroRequested.EphemeralStorage)
  | ResourceName.other name isScalar =>
      if isScalar then
        (scalarLookup nodeInfo.Allocatable.ScalarResources name,
         scalarLookup nodeInfo.NonZeroRequested.ScalarResources name)
      else
        (0, 0)

/-- resourceAllocationScorer.calculateResourceAllocatableCost from
metrics_obtain.go: with no metrics client, or on a query error, fall
back to calculateResourceAllocatableRequest; on success, use measured
usage for cpu and memory unless the reading is exactly 0, and static
data for every other dimension. -/
def resourceAllocationScorer.calculateResourceAllocatableCost
    (r : resourceAllocationScorer) (world : String → MetricsResult)
    (nodeInfo : NodeInfo) (resource : ResourceName) : Int × Int :=
  match r.metricsClient with
  | none => calculateResourceAllocatableRequest nodeInfo resource
  | some _ =>
    match world nodeInfo.nodeName with
    | MetricsResult.err => calculateResourceAllocatableRequest nodeInfo resource
    | MetricsResult.ok nodeMetrics =>
      match resource with
      | ResourceName.cpu =>
          if nodeMetrics.Usage.cpuMilliValue = 0 then
            (nodeInfo.Allocatable.MilliCPU, nodeInfo.NonZeroRequested.MilliCPU)
          else
            (nodeInfo.Allocatable.MilliCPU, nodeMetrics.Usage.cpuMilliValue)
      | ResourceName.memory =>
          if nodeMetrics.Usage.memoryValue = 0 then
            (nodeInfo.Allocatable.Memory, nodeInfo.NonZeroRequested.Memory)
          else
            (nodeInfo.Allocatable.Memory, nodeMetrics.Usage.memoryValue)
      | ResourceName.podNum =>
          (nodeInfo.Allocatable.AllowedPodNumber, (nodeInfo.Pods.length : Int))
      | ResourceName.ephemeralStorage =>
          (nodeInfo.Allocatable.EphemeralStorage, nodeInfo.Requested.EphemeralStorage)
      | ResourceName.other name isScalar =>
          if isScalar then
            (scalarLookup nodeInfo.Allocatable.ScalarResources name,
             scalarLookup nodeInfo.Requested.ScalarResources name)
          else
            (0, 0)

/-- resourceAllocationScorer.score from metrics_obtain.go: nil node and
nil weight map are rejected with framework.Error statuses; otherwise the
per-dimension (allocatable, cost) pairs are collected over the weight
map and handed to the scorer function. The logging side effects are
dropped. -/
def resourceAllocationScorer.score (r : resourceAllocationScorer)
    (world : String → MetricsResult) (nodeInfo : NodeInfo) : Int × Option Status :=
  match nodeInfo.node with
  | none => (0, some ⟨StatusCode.Error, "node not found"⟩)
  | some _ =>
    match r.resourceToWeightMap with
    | none => (0, some ⟨StatusCode.Error, "resources not found"⟩)
    | some weightMap =>
      let cost : resourceToValueMap :=
        weightMap.map fun entry =>
          (entry.1, (r.calculateResourceAllocatableCost world nodeInfo entry.1).2)
      let allocatable : resourceToValueMap :=
        weightMap.map fun entry =>
          (entry.1, (r.calculateResourceAllocatableCost world nodeInfo entry.1).1)
      (r.scorer cost allocatable, none)

/-- framework.MaxNodeScore. -/
def maxNodeScore : Int := 100

/-- Modelled from the spec: the Least ranking policy of section 4.4.
The scorer function passed to resourceAllocationScorer is not under
src (only its caller is), so the policy is taken from the spec text:
score equals maxScore multiplied by (1 - weightedCost divided by
weightedAllocatable), clamped to [0, maxScore], with the utilization
fraction defined as 0 when weightedAllocatable is 0; floor rounding is
the single rounding rule, applied via integer division after clearing
the denominator. -/
def leastModeScore (weightedCost weightedAllocatable : Int) : Int :=
  if weightedAllocatable = 0 then
    maxNodeScore
  else
    max 0 (min maxNodeScore
      (maxNodeScore * (weightedAllocatable - weightedCost) / weightedAllocatable))

/-! Concrete fixtures used by witnesses and counterexamples. -/

/-- An all-zero resource vector. -/
def zeroResource : Resource := ⟨0, 0, 0, 0, []⟩

/-- A sample node. -/
def sampleNode : Node := ⟨"node-a"⟩

/-- A sample node snapshot; Requested.EphemeralStorage (5) deliberately
differs from NonZeroRequested.EphemeralStorage (7). -/
def sampleNodeInfo : NodeInfo :=
  ⟨some sampleNode, [(), ()],
   ⟨2000, 4096, 5, 0, []⟩,
   ⟨2100, 4200, 7, 0, []⟩,
   ⟨4000, 8192, 9, 110, []⟩⟩

/-- A node snapshot whose pointer to the v1.Node object is nil. -/
def noNodeInfo : NodeInfo := ⟨none, [], zeroResource, zeroResource, zeroResource⟩

/-- A node snapshot whose Requested and NonZeroRequested ephemeral
storage agree. -/
def agreeingNodeInfo : NodeInfo :=
  ⟨some sampleNode, [()],
   ⟨2000, 4096, 5, 0, []⟩,
   ⟨2100, 4200, 5, 0, []⟩,
   ⟨4000, 8192, 9, 110, []⟩⟩

/-- A scorer instance with the default weight map and no metrics client. -/
def sampleScorer : resourceAllocationScorer :=
  ⟨"NodeResourcesAllocatable", fun _ _ => 0, some defaultResourcesToWeightMap, none⟩

/-- A scorer instance with a metrics client configured. -/
def sampleScorerWithClient : resourceAllocationScorer :=
  ⟨"NodeResourcesAllocatable", fun _ _ => 0, some defaultResourcesToWeightMap, some ()⟩

/-- A scorer instance whose weight map is non-nil but empty. -/
def emptyMapScorer : resourceAllocationScorer :=
  ⟨"NodeResourcesAllocatable", fun _ _ => 0, some [], none⟩

/-- A scorer instance whose weight map is nil. -/
def noMapScorer : resourceAllocationScorer :=
  ⟨"NodeResourcesAllocatable", fun _ _ => 0, none, none⟩

/-- A metrics oracle that always fails the query. -/
def errWorld : String → MetricsResult := fun _ => MetricsResult.err

/-- A metrics oracle that succeeds with zero cpu and memory usage. -/
def idleWorld : String → MetricsResult := fun _ => MetricsResult.ok ⟨⟨0, 0⟩⟩

/-- A metrics oracle that succeeds with non-zero cpu and memory usage. -/
def busyWorld : String → MetricsResult := fun _ => MetricsResult.ok ⟨⟨1500, 2048⟩⟩

/-- Helper: with no metrics client configured the resolver is exactly
the static path, whatever the oracle answers. -/
theorem calculateResourceAllocatableCost_no_client
    (r : resourceAllocationScorer) (world : String → MetricsResult)
    (nodeInfo : NodeInfo) (resource : ResourceName)
    (h : r.metricsClient = none) :
    r.calculateResourceAllocatableCost world nodeInfo resource =
      calculateResourceAllocatableRequest nodeInfo resource := by
  unfold resourceAllocationScorer.calculateResourceAllocatableCost
  rw [h]

/-- Claim C7: the default resource weight table maps exactly memory to 1,
cpu to 1048576 (1 shifted left by 20) and podNum to 1, and nothing else. -/
theorem default_weight_map_exact :
    ∀ resource : ResourceName,
      defaultResourcesToWeightMap.lookup resource =
        (match resource with
         | ResourceName.memory => some 1
         | ResourceName.cpu => some 1048576
         | ResourceName.podNum => some 1
         | _ => none) := by
  intro resource
  cases resource <;> rfl

/-- Claim C5: for the podNum dimension both resolver paths return the
pair (AllowedPodNumber, number of pods bound to the node), for every
scorer configuration and every oracle. -/
theorem pod_count_resolution (r : resourceAllocationScorer)
    (world : String → MetricsResult) (nodeInfo : NodeInfo) :
    r.calculateResourceAllocatableCost world nodeInfo ResourceName.podNum =
      (nodeInfo.Allocatable.AllowedPodNumber, (nodeInfo.Pods.length : Int)) ∧
    calculateResourceAllocatableRequest nodeInfo ResourceName.podNum =
      (nodeInfo.Allocatable.AllowedPodNumber, (nodeInfo.Pods.length : Int)) := by
  refine ⟨?_, rfl⟩
  unfold resourceAllocationScorer.calculateResourceAllocatableCost
  cases r.metricsClient with
  | none => rfl
  | some u =>
    cases world nodeInfo.nodeName with
    | err => rfl
    | ok m => rfl

/-- Claim C6: a dimension name that is none of cpu, memory, podNum,
ephemeralStorage and is not a valid scalar resource name resolves to
(0, 0) on both paths, for every scorer configuration and every oracle. -/
theorem unknown_dimension_resolution (r : resourceAllocationScorer)
    (world : String → MetricsResult) (nodeInfo : NodeInfo) (name : String) :
    r.calculateResourceAllocatableCost world nodeInfo (ResourceName.other name false) =
      (0, 0) ∧
    calculateResourceAllocatableRequest nodeInfo (ResourceName.other name false) =
      (0, 0) := by
  refine ⟨?_, rfl⟩
  unfold resourceAllocationScorer.calculateResourceAllocatableCost
  cases r.metricsClient with
  | none => rfl
  | some u =>
    cases world nodeInfo.nodeName with
    | err => rfl
    | ok m => rfl

/-- Claim C10: on every path (no client, query error, query success with
any usage values) the allocatable component of the resolver output
equals the allocatable component of the static path, which is computed
from the node snapshot alone. -/
theorem allocatable_component_static (r : resourceAllocationScorer)
    (world : String → MetricsResult) (nodeInfo : NodeInfo) (resource : ResourceName) :
    (r.calculateResourceAllocatableCost world nodeInfo resource).1 =
      (calculateResourceAllocatableRequest nodeInfo resource).1 := by
  unfold resourceAllocationScorer.calculateResourceAllocatableCost
  cases r.metricsClient with
  | none => rfl
  | some u =>
    cases world nodeInfo.nodeName with
    | err => rfl
    | ok m =>
      cases resource with
      | cpu =>
        by_cases h : m.Usage.cpuMilliValue = 0 <;>
          simp [h, calculateResourceAllocatableRequest]
      | memory =>
        by_cases h : m.Usage.memoryValue = 0 <;>
          simp [h, calculateResourceAllocatableRequest]
      | podNum => rfl
      | ephemeralStorage => rfl
      | other name isScalar =>
        cases isScalar <;> rfl

/-- Counterexample to claim C1 as stated: a scorer whose weight map is
non-nil but empty passes the nil check, so score succeeds (status nil,
score 0 from the scorer over two empty value maps) instead of failing
with a NoResourcesConfiguredError-equivalent status. -/
theorem score_empty_weight_map_counterexample :
    emptyMapScorer.resourceToWeightMap = some [] ∧
    emptyMapScorer.score errWorld sampleNodeInfo = (0, none) :=
  ⟨rfl, rfl⟩

/-- Claim C1 amended: score fails with the NodeNotFoundError-equivalent
status when the node snapshot is absent, and with the
NoResourcesConfiguredError-equivalent status when the node is present
and the weight map is nil (absent); a non-nil empty weight map is not
rejected. -/
theorem score_error_statuses (r : resourceAllocationScorer)
    (world : String → MetricsResult) (nodeInfo : NodeInfo) :
    (nodeInfo.node = none →
      r.score world nodeInfo = (0, some ⟨StatusCode.Error, "node not found"⟩)) ∧
    (nodeInfo.node ≠ none → r.resourceToWeightMap = none →
      r.score world nodeInfo = (0, some ⟨StatusCode.Error, "resources not found"⟩)) := by
  constructor
  · intro h
    unfold resourceAllocationScorer.score
    rw [h]
  · intro h1 h2
    unfold resourceAllocationScorer.score
    cases hn : nodeInfo.node with
    | none => exact absurd hn h1
    | some nd => rw [h2]

/-- Witness for score_error_statuses at concrete inputs. -/
theorem score_error_statuses_witness :
    noMapScorer.score errWorld noNodeInfo =
      (0, some ⟨StatusCode.Error, "node not found"⟩) ∧
    noMapScorer.score errWorld sampleNodeInfo =
      (0, some ⟨StatusCode.Error, "resources not found"⟩) :=
  ⟨(score_error_statuses noMapScorer errWorld noNodeInfo).1 rfl,
   (score_error_statuses noMapScorer errWorld sampleNodeInfo).2 (by decide) rfl⟩

/-- Claim C2: with a metrics client configured and the query failing,
the resolver returns exactly the static pair for every dimension, and
score (node present, weight map present) still returns a nil status. -/
theorem telemetry_error_falls_back_static (r : resourceAllocationScorer)
    (world : String → MetricsResult) (nodeInfo : NodeInfo) (resource : ResourceName)
    (weightMap : resourceToWeightMap)
    (hclient : r.metricsClient = some ())
    (herr : world nodeInfo.nodeName = MetricsResult.err)
    (hnode : nodeInfo.node ≠ none)
    (hmap : r.resourceToWeightMap = some weightMap) :
    r.calculateResourceAllocatableCost world nodeInfo resource =
      calculateResourceAllocatableRequest nodeInfo resource ∧
    (r.score world nodeInfo).2 = none := by
  constructor
  · unfold resourceAllocationScorer.calculateResourceAllocatableCost
    rw [hclient, herr]
  · unfold resourceAllocationScorer.score
    cases hn : nodeInfo.node with
    | none => exact absurd hn hnode
    | some nd => rw [hmap]

/-- Witness for telemetry_error_falls_back_static at concrete inputs. -/
theorem telemetry_error_falls_back_static_witness :
    sampleScorerWithClient.calculateResourceAllocatableCost errWorld sampleNodeInfo
        ResourceName.cpu =
      calculateResourceAllocatableRequest sampleNodeInfo ResourceName.cpu ∧
    (sampleScorerWithClient.score errWorld sampleNodeInfo).2 = none :=
  telemetry_error_falls_back_static sampleScorerWithClient errWorld sampleNodeInfo
    ResourceName.cpu defaultResourcesToWeightMap rfl rfl (by decide) rfl

/-- Claim C3: with a metrics client configured and the query succeeding,
a measured reading of exactly 0 for cpu (millicores) or memory (bytes)
makes the resolver return the allocatable value of the node paired with
its non-zero-requested value for that dimension, which is exactly the
static path output. -/
theorem zero_usage_falls_back_static (r : resourceAllocationScorer)
    (world : String → MetricsResult) (nodeInfo : NodeInfo) (m : NodeMetrics)
    (hclient : r.metricsClient = some ())
    (hok : world nodeInfo.nodeName = MetricsResult.ok m) :
    (m.Usage.cpuMilliValue = 0 →
      r.calculateResourceAllocatableCost world nodeInfo ResourceName.cpu =
        (nodeInfo.Allocatable.MilliCPU, nodeInfo.NonZeroRequested.MilliCPU) ∧
      r.calculateResourceAllocatableCost world nodeInfo ResourceName.cpu =
        calculateResourceAllocatableRequest nodeInfo ResourceName.cpu) ∧
    (m.Usage.memoryValue = 0 →
      r.calculateResourceAllocatableCost world nodeInfo ResourceName.memory =
        (nodeInfo.Allocatable.Memory, nodeInfo.NonZeroRequested.Memory) ∧
      r.calculateResourceAllocatableCost world nodeInfo ResourceName.memory =
        calculateResourceAllocatableRequest nodeInfo ResourceName.memory) := by
  constructor
  · intro hzero
    unfold resourceAllocationScorer.calculateResourceAllocatableCost
    rw [hclient, hok]
    simp [hzero, calculateResourceAllocatableRequest]
  · intro hzero
    unfold resourceAllocationScorer.calculateResourceAllocatableCost
    rw [hclient, hok]
    simp [hzero, calculateResourceAllocatableRequest]

/-- Witness for zero_usage_falls_back_static at concrete inputs. -/
theorem zero_usage_falls_back_static_witness :
    sampleScorerWithClient.calculateResourceAllocatableCost idleWorld sampleNodeInfo
        ResourceName.cpu =
      calculateResourceAllocatableRequest sampleNodeInfo ResourceName.cpu ∧
    sampleScorerWithClient.calculateResourceAllocatableCost idleWorld sampleNodeInfo
        ResourceName.memory =
      calculateResourceAllocatableRequest sampleNodeInfo ResourceName.memory :=
  ⟨((zero_usage_falls_back_static sampleScorerWithClient idleWorld sampleNodeInfo
      ⟨⟨0, 0⟩⟩ rfl rfl).1 rfl).2,
   ((zero_usage_falls_back_static sampleScorerWithClient idleWorld sampleNodeInfo
      ⟨⟨0, 0⟩⟩ rfl rfl).2 rfl).2⟩

/-- Counterexample to claim C4 as stated: on the telemetry-success path
the ephemeral storage cost is Requested.EphemeralStorage, while the
static path uses NonZeroRequested.EphemeralStorage; on a snapshot where
the two request fields differ (5 versus 7) the pairs differ. -/
theorem ephemeral_storage_paths_differ_counterexample :
    sampleScorerWithClient.calculateResourceAllocatableCost busyWorld sampleNodeInfo
        ResourceName.ephemeralStorage ≠
      calculateResourceAllocatableRequest sampleNodeInfo ResourceName.ephemeralStorage := by
  decide

/-- Claim C4 amended: the telemetry-success path returns the allocatable
ephemeral storage of the node paired with Requested.EphemeralStorage,
the static path pairs it with NonZeroRequested.EphemeralStorage, and
the two paths coincide exactly when those two request fields agree. -/
theorem ephemeral_storage_resolution (r : resourceAllocationScorer)
    (world : String → MetricsResult) (nodeInfo : NodeInfo) (m : NodeMetrics)
    (hclient : r.metricsClient = some ())
    (hok : world nodeInfo.nodeName = MetricsResult.ok m) :
    r.calculateResourceAllocatableCost world nodeInfo ResourceName.ephemeralStorage =
      (nodeInfo.Allocatable.EphemeralStorage, nodeInfo.Requested.EphemeralStorage) ∧
    calculateResourceAllocatableRequest nodeInfo ResourceName.ephemeralStorage =
      (nodeInfo.Allocatable.EphemeralStorage, nodeInfo.NonZeroRequested.EphemeralStorage) ∧
    (nodeInfo.Requested.EphemeralStorage = nodeInfo.NonZeroRequested.EphemeralStorage →
      r.calculateResourceAllocatableCost world nodeInfo ResourceName.ephemeralStorage =
        calculateResourceAllocatableRequest nodeInfo ResourceName.ephemeralStorage) := by
  refine ⟨?_, rfl, ?_⟩
  · unfold resourceAllocationScorer.calculateResourceAllocatableCost
    rw [hclient, hok]
  · intro hagree
    unfold resourceAllocationScorer.calculateResourceAllocatableCost
    rw [hclient, hok]
    simp [calculateResourceAllocatableRequest, hagree]

/-- Witness for ephemeral_storage_resolution at concrete inputs. -/
theorem ephemeral_storage_resolution_witness :
    sampleScorerWithClient.calculateResourceAllocatableCost busyWorld agreeingNodeInfo
        ResourceName.ephemeralStorage =
      (agreeingNodeInfo.Allocatable.EphemeralStorage,
       agreeingNodeInfo.Requested.EphemeralStorage) ∧
    sampleScorerWithClient.calculateResourceAllocatableCost busyWorld agreeingNodeInfo
        ResourceName.ephemeralStorage =
      calculateResourceAllocatableRequest agreeingNodeInfo ResourceName.ephemeralStorage :=
  ⟨(ephemeral_storage_resolution sampleScorerWithClient busyWorld agreeingNodeInfo
      ⟨⟨1500, 2048⟩⟩ rfl rfl).1,
   (ephemeral_storage_resolution sampleScorerWithClient busyWorld agreeingNodeInfo
      ⟨⟨1500, 2048⟩⟩ rfl rfl).2.2 rfl⟩

/-- Claim C8: with no metrics client configured, score does not depend
on the metrics oracle at all: any two invocations on identical scorer
and node snapshot, under arbitrary (possibly different) oracle
behaviour, return the same score and the same status. -/
theorem score_deterministic_without_telemetry (r : resourceAllocationScorer)
    (world1 world2 : String → MetricsResult) (nodeInfo : NodeInfo)
    (hclient : r.metricsClient = none) :
    r.score world1 nodeInfo = r.score world2 nodeInfo := by
  have hfix : ∀ (world : String → MetricsResult) (resource : ResourceName),
      r.calculateResourceAllocatableCost world nodeInfo resource =
        calculateResourceAllocatableRequest nodeInfo resource :=
    fun world resource =>
      calculateResourceAllocatableCost_no_client r world nodeInfo resource hclient
  unfold resourceAllocationScorer.score
  cases nodeInfo.node with
  | none => rfl
  | some nd =>
    cases r.resourceToWeightMap with
    | none => rfl
    | some weightMap => simp only [hfix]

/-- Witness for score_deterministic_without_telemetry at concrete inputs. -/
theorem score_deterministic_without_telemetry_witness :
    sampleScorer.score errWorld sampleNodeInfo =
      sampleScorer.score busyWorld sampleNodeInfo :=
  score_deterministic_without_telemetry sampleScorer errWorld busyWorld sampleNodeInfo rfl

/-- Claim C9: in Least mode the score is the clamp to [0, maxNodeScore]
of maxNodeScore times (1 minus weightedCost over weightedAllocatable),
computed with floor rounding after clearing the denominator; a zero
weightedAllocatable gives the convention value maxNodeScore with no
division fault, and the result always lies inside [0, maxNodeScore]. -/
theorem least_mode_formula (weightedCost weightedAllocatable : Int) :
    (weightedAllocatable ≠ 0 →
      leastModeScore weightedCost weightedAllocatable =
        max 0 (min maxNodeScore
          (maxNodeScore * (weightedAllocatable - weightedCost) / weightedAllocatable))) ∧
    (weightedAllocatable = 0 →
      leastModeScore weightedCost weightedAllocatable = maxNodeScore) ∧
    0 ≤ leastModeScore weightedCost weightedAllocatable ∧
    leastModeScore weightedCost weightedAllocatable ≤ maxNodeScore := by
  unfold leastModeScore
  by_cases h : weightedAllocatable = 0
  · refine ⟨fun hne => absurd h hne, fun _ => by simp [h], ?_, ?_⟩
    · simp [h, maxNodeScore]
    · simp [h]
  · refine ⟨fun _ => by simp [h], fun heq => absurd heq h, ?_, ?_⟩
    · simp only [h, if_false]
      exact le_max_left 0 _
    · simp only [h, if_false]
      exact max_le (by unfold maxNodeScore; norm_num) (min_le_left _ _)

/-- Witness for least_mode_formula at concrete inputs. -/
theorem least_mode_formula_witness :
    leastModeScore 50 100 =
      max 0 (min maxNodeScore (maxNodeScore * (100 - 50) / 100)) ∧
    leastModeScore 25 0 = maxNodeScore :=
  ⟨(least_mode_formula 50 100).1 (by decide), (least_mode_formula 25 0).2.1 rfl⟩

end LoadAware
